import Mathlib

/-!
Verification of the ScaledObject validation core of KEDA
(`apis/keda/v1alpha1/scaledobject_types.go`).

Shallow embedding of the validation-and-derivation logic:

* `GetHPAMinReplicas` / `GetHPAMaxReplicas` (default resolution),
* `IsUsingModifiers` (scaling-modifier detection),
* `CheckReplicaCountBoundsAreValid` (idle/min/max consistency),
* `CheckFallbackValid` (fallback-policy validity),
* `NeedToBePausedByAnnotation` (pause-state resolution; the Lean name is
  shortened to `needToBePausedByAnn`).

Go `*int32` optional fields become `Option Int` (the validators only compare
values, so no 32-bit wraparound can occur); Go `error` results become
`Option E` for a small inductive error taxonomy `E`, one constructor per
distinct `fmt.Errorf` site, with `none` modelling the `nil` error (success).
Annotations (`ObjectMeta.Annotations`, a Go `map[string]string`) are embedded
as an association list queried with `List.lookup`.
-/

/-- Embedding of `autoscalingv2.MetricTargetType`, a string type in the
Kubernetes API; `""` is the unset value. -/
abbrev MetricTargetType := String

/-- Embedding of the constant `autoscalingv2.ValueMetricType`. -/
def ValueMetricType : MetricTargetType := "Value"

/-- Embedding of the constant `autoscalingv2.AverageValueMetricType`. -/
def AverageValueMetricType : MetricTargetType := "AverageValue"

/-- Annotation key `PausedReplicasAnnotation` from the Go source
(`"autoscaling.keda.sh/paused-replicas"`). -/
def pausedReplicasAnnKey : String := "autoscaling.keda.sh/paused-replicas"

/-- Annotation key `PausedAnnotation` from the Go source
(`"autoscaling.keda.sh/paused"`). -/
def pausedAnnKey : String := "autoscaling.keda.sh/paused"

/-- Modelled from the spec: the reserved trigger type tags `cpu` and `memory`
(the Go constants `cpuString` / `memoryString` live in a repository file not
part of this excerpt; spec, data model, names the two reserved tags). -/
def cpuString : String := "cpu"

/-- Modelled from the spec: see `cpuString`. -/
def memoryString : String := "memory"

/-- Embedding of `defaultHPAMinReplicas int32 = 1`. -/
def defaultHPAMinReplicas : Int := 1

/-- Embedding of `defaultHPAMaxReplicas int32 = 100`. -/
def defaultHPAMaxReplicas : Int := 100

/-- Modelled from the spec: a trigger (`ScaleTriggers`, declared in a
repository file not part of this excerpt) is a type tag plus a
metric-target-type, `""` when unset (spec, data model, "Trigger"). -/
structure ScaleTriggers where
  type : String
  metricType : MetricTargetType
deriving DecidableEq

/-- Embedding of `ScalingModifiers`: formula, target, activation target,
metric type. -/
structure ScalingModifiers where
  formula : String
  target : String
  activationTarget : String
  metricType : MetricTargetType
deriving DecidableEq

/-- The zero value `ScalingModifiers{}` that `IsUsingModifiers` compares
against with `reflect.DeepEqual`. -/
def emptyScalingModifiers : ScalingModifiers :=
  { formula := "", target := "", activationTarget := "", metricType := "" }

/-- Embedding of `HorizontalPodAutoscalerConfig`; the `Behavior` passthrough
field is an opaque external Kubernetes type never read by this core, embedded
as a flag recording its presence. -/
structure HorizontalPodAutoscalerConfig where
  behaviorPresent : Bool
  name : String
deriving DecidableEq

/-- Embedding of `AdvancedConfig`. -/
structure AdvancedConfig where
  horizontalPodAutoscalerConfig : Option HorizontalPodAutoscalerConfig
  restoreToOriginalReplicaCount : Bool
  scalingModifiers : ScalingModifiers
deriving DecidableEq

/-- Embedding of `Fallback`. -/
structure Fallback where
  failureThreshold : Int
  replicas : Int
  behavior : String
deriving DecidableEq

/-- Embedding of `ScaleTarget`. -/
structure ScaleTarget where
  name : String
  apiVersion : String
  kind : String
  envSourceContainerName : String
deriving DecidableEq

/-- Embedding of `ScaledObjectSpec`; nullable pointers become `Option`. -/
structure ScaledObjectSpec where
  scaleTargetRef : Option ScaleTarget
  pollingInterval : Option Int
  initialCooldownPeriod : Option Int
  cooldownPeriod : Option Int
  idleReplicaCount : Option Int
  minReplicaCount : Option Int
  maxReplicaCount : Option Int
  advanced : Option AdvancedConfig
  triggers : List ScaleTriggers
  fallback : Option Fallback
deriving DecidableEq

/-- Embedding of `ScaledObjectStatus`, restricted to `PausedReplicaCount`:
the only status field any of the five embedded functions reads. -/
structure ScaledObjectStatus where
  pausedReplicaCount : Option Int
deriving DecidableEq

/-- Embedding of `ScaledObject`: its annotations (from `ObjectMeta`), spec
and status. -/
structure ScaledObject where
  annotations : List (String × String)
  spec : ScaledObjectSpec
  status : ScaledObjectStatus
deriving DecidableEq

/-- Model of Go `strconv.ParseBool` (standard library, external to the
repository): accepts exactly `1, t, T, TRUE, true, True` and
`0, f, F, FALSE, false, False`; `none` models the error return. -/
def goParseBool (s : String) : Option Bool :=
  if s = "1" ∨ s = "t" ∨ s = "T" ∨ s = "TRUE" ∨ s = "true" ∨ s = "True" then
    some true
  else if s = "0" ∨ s = "f" ∨ s = "F" ∨ s = "FALSE" ∨ s = "false" ∨ s = "False" then
    some false
  else
    none

/-- Embedding of `NeedToBePausedByAnnotation` (Go method on `*ScaledObject`):
paused-replicas annotation presence wins and defers to
`Status.PausedReplicaCount != nil`; else an absent paused annotation means
false; else parse the value, defaulting to true on a parse error. -/
def needToBePausedByAnn (so : ScaledObject) : Bool :=
  if (so.annotations.lookup pausedReplicasAnnKey).isSome then
    so.status.pausedReplicaCount.isSome
  else
    match so.annotations.lookup pausedAnnKey with
    | none => false
    | some v =>
      match goParseBool v with
      | none => true
      | some shouldPause => shouldPause

/-- Embedding of `IsUsingModifiers`: `Spec.Advanced != nil` and its
`ScalingModifiers` is not `reflect.DeepEqual` to the zero value. -/
def IsUsingModifiers (so : ScaledObject) : Bool :=
  match so.spec.advanced with
  | none => false
  | some adv => adv.scalingModifiers ≠ emptyScalingModifiers

/-- Embedding of `GetHPAMinReplicas`: the declared min when present and
`> 0`, else the default 1.  (Go returns a pointer; the embedding returns the
value.) -/
def GetHPAMinReplicas (so : ScaledObject) : Int :=
  match so.spec.minReplicaCount with
  | some m => if m > 0 then m else defaultHPAMinReplicas
  | none => defaultHPAMinReplicas

/-- Embedding of `GetHPAMaxReplicas`: the declared max when present, else the
default 100. -/
def GetHPAMaxReplicas (so : ScaledObject) : Int :=
  match so.spec.maxReplicaCount with
  | some m => m
  | none => defaultHPAMaxReplicas

/-- Error taxonomy of `CheckReplicaCountBoundsAreValid`: one constructor per
`fmt.Errorf` site, named as in the spec.  The Go messages interpolate the
offending values; only the error kind is modelled. -/
inductive ReplicaBoundsError where
  | OutOfBoundsReplicaCount
  | IdleAboveOrEqualMin
deriving DecidableEq

/-- Embedding of `CheckReplicaCountBoundsAreValid`: `minReplicas` is
`*GetHPAMinReplicas()` when a min is declared (note: this clamps a
non-positive declared min to 1) and 0 when not; `maxReplicas` is
`GetHPAMaxReplicas()`.  Fails when `minReplicas > maxReplicas`, then when an
idle count is set and `idle >= minReplicas`.  The Go function returns `error`
with `nil` on success; `none` models the `nil` error. -/
def CheckReplicaCountBoundsAreValid (so : ScaledObject) :
    Option ReplicaBoundsError :=
  let minReplicas : Int :=
    if so.spec.minReplicaCount.isSome then GetHPAMinReplicas so else 0
  let maxReplicas : Int := GetHPAMaxReplicas so
  if minReplicas > maxReplicas then
    some ReplicaBoundsError.OutOfBoundsReplicaCount
  else
    match so.spec.idleReplicaCount with
    | some idle =>
      if idle ≥ minReplicas then
        some ReplicaBoundsError.IdleAboveOrEqualMin
      else
        none
    | none => none

/-- Error taxonomy of `CheckFallbackValid`: one constructor per `fmt.Errorf`
site, named as in the spec. -/
inductive FallbackError where
  | NegativeFallbackField
  | UnsupportedFallbackMetricType
  | NoEligibleFallbackTrigger
deriving DecidableEq

/-- Embedding of the trigger loop of `CheckFallbackValid`: skip
`cpu`/`memory` triggers, default an unset metric type to `AverageValue`, and
stop at the first trigger whose effective metric type is `AverageValue`.  The
Go `for` loop with `continue`/`break` becomes structural recursion. -/
def fallbackTriggerScan : List ScaleTriggers → Bool
  | [] => false
  | trigger :: rest =>
    if trigger.type = cpuString ∨ trigger.type = memoryString then
      fallbackTriggerScan rest
    else
      let effectiveMetricType :=
        if trigger.metricType = "" then AverageValueMetricType
        else trigger.metricType
      if effectiveMetricType = AverageValueMetricType then true
      else fallbackTriggerScan rest

/-- Metric type of the scaling modifiers
(`Spec.Advanced.ScalingModifiers.MetricType`); the Go code dereferences
`Spec.Advanced` only behind an `IsUsingModifiers` guard, which guarantees
`Advanced != nil`, so the `none` branch here is never reached in that use. -/
def modifiersMetricType (so : ScaledObject) : MetricTargetType :=
  match so.spec.advanced with
  | some adv => adv.scalingModifiers.metricType
  | none => ""

/-- Embedding of `CheckFallbackValid`: success when no fallback block; then
the negative-field check; then, with modifiers in use, the modifier metric
type must not be `Value`; otherwise at least one trigger must pass
`fallbackTriggerScan`.  `none` models the `nil` error (success). -/
def CheckFallbackValid (so : ScaledObject) : Option FallbackError :=
  match so.spec.fallback with
  | none => none
  | some fb =>
    if fb.failureThreshold < 0 ∨ fb.replicas < 0 then
      some FallbackError.NegativeFallbackField
    else if IsUsingModifiers so then
      if modifiersMetricType so = ValueMetricType then
        some FallbackError.UnsupportedFallbackMetricType
      else
        none
    else
      if fallbackTriggerScan so.spec.triggers then none
      else some FallbackError.NoEligibleFallbackTrigger

/-- Min-replica baseline that `CheckReplicaCountBoundsAreValid` compares
idle/max against, written in the claims' language: the declared min when
present and positive, 1 when a min is declared but not positive (the
`GetHPAMinReplicas` clamp), and 0 when no min is declared. -/
def boundsCheckMinBaseline (so : ScaledObject) : Int :=
  match so.spec.minReplicaCount with
  | some m => if 0 < m then m else 1
  | none => 0

/-- Per-trigger eligibility test of the fallback trigger scan, as a Boolean
predicate: the type tag is neither `cpu` nor `memory` and the effective
metric type (declared, or `AverageValue` when unset) is `AverageValue`. -/
def fallbackEligible (t : ScaleTriggers) : Bool :=
  !(t.type = cpuString || t.type = memoryString) &&
    ((if t.metricType = "" then AverageValueMetricType else t.metricType) =
      AverageValueMetricType)

/-- Spec with every optional field absent and no triggers. -/
def soSpecEmpty : ScaledObjectSpec :=
  { scaleTargetRef := none, pollingInterval := none, initialCooldownPeriod := none,
    cooldownPeriod := none, idleReplicaCount := none, minReplicaCount := none,
    maxReplicaCount := none, advanced := none, triggers := [], fallback := none }

/-- Wraps a spec into a `ScaledObject` with no annotations and empty status. -/
def mkSO (s : ScaledObjectSpec) : ScaledObject :=
  { annotations := [], spec := s, status := { pausedReplicaCount := none } }

/-- Fallback block with nonnegative fields. -/
def fbNonneg : Fallback := { failureThreshold := 3, replicas := 2, behavior := "static" }

/-- Fallback block with a negative failure threshold. -/
def fbNeg : Fallback := { failureThreshold := -1, replicas := 2, behavior := "static" }

/-- Advanced block whose modifiers use the `Value` metric type. -/
def advValue : AdvancedConfig :=
  { horizontalPodAutoscalerConfig := none, restoreToOriginalReplicaCount := false,
    scalingModifiers :=
      { formula := "a + b", target := "2", activationTarget := "", metricType := "Value" } }

/-- Advanced block whose modifiers use the `AverageValue` metric type. -/
def advAvg : AdvancedConfig :=
  { horizontalPodAutoscalerConfig := none, restoreToOriginalReplicaCount := false,
    scalingModifiers :=
      { formula := "a + b", target := "2", activationTarget := "",
        metricType := "AverageValue" } }

/-- Trigger of type `kafka` with no explicit metric type. -/
def kafkaTrigger : ScaleTriggers := { type := "kafka", metricType := "" }

/-- Trigger of type `cpu`. -/
def cpuTrigger : ScaleTriggers := { type := "cpu", metricType := "" }

/-- Object with declared min 0 and declared max 0 (C1 counterexample input). -/
def soMinZeroMaxZero : ScaledObject :=
  mkSO { soSpecEmpty with minReplicaCount := some 0, maxReplicaCount := some 0 }

/-- Object with declared min 0 and idle 0 (C2 counterexample input). -/
def soMinZeroIdleZero : ScaledObject :=
  mkSO { soSpecEmpty with minReplicaCount := some 0, idleReplicaCount := some 0 }

/-- Object with declared min 10 and idle 10 (C2 witness input). -/
def soMin10Idle10 : ScaledObject :=
  mkSO { soSpecEmpty with minReplicaCount := some 10, idleReplicaCount := some 10 }

/-- Object carrying only the paused annotation, with a malformed value
(C3 witness input). -/
def soPausedGarbage : ScaledObject :=
  { annotations := [(pausedAnnKey, "not-a-bool")], spec := soSpecEmpty,
    status := { pausedReplicaCount := none } }

/-- Object with fallback present, no modifiers, cpu plus kafka triggers
(C4 witness input). -/
def soTrigKafka : ScaledObject :=
  mkSO { soSpecEmpty with fallback := some fbNonneg, triggers := [cpuTrigger, kafkaTrigger] }

/-- Object with fallback present and modifiers of metric type `Value`
(C5 witness input). -/
def soModValue : ScaledObject :=
  mkSO { soSpecEmpty with fallback := some fbNonneg, advanced := some advValue }

/-- Object with a fallback whose failure threshold is negative
(C8 witness input). -/
def soNegFallback : ScaledObject := mkSO { soSpecEmpty with fallback := some fbNeg }

/-- Object with declared min -5 (C9 witness input). -/
def soMinNeg : ScaledObject := mkSO { soSpecEmpty with minReplicaCount := some (-5) }

/-- Object with fallback present and modifiers of metric type `AverageValue`
(C10 witness input). -/
def soModAvg : ScaledObject :=
  mkSO { soSpecEmpty with fallback := some fbNonneg, advanced := some advAvg }

/-- Helper: the `minReplicas` local of `CheckReplicaCountBoundsAreValid`
equals `boundsCheckMinBaseline`. -/
theorem boundsCheckMinBaseline_eq (so : ScaledObject) :
    (if so.spec.minReplicaCount.isSome then GetHPAMinReplicas so else 0) =
      boundsCheckMinBaseline so := by
  unfold boundsCheckMinBaseline GetHPAMinReplicas
  cases h : so.spec.minReplicaCount <;> simp [h, defaultHPAMinReplicas]

/-- Helper: characterisation of `fallbackEligible` as a proposition. -/
theorem fallbackEligible_iff (t : ScaleTriggers) :
    fallbackEligible t = true ↔
      (t.type ≠ cpuString ∧ t.type ≠ memoryString) ∧
        (if t.metricType = "" then AverageValueMetricType else t.metricType) =
          AverageValueMetricType := by
  simp [fallbackEligible]
  tauto

/-- Helper: an ineligible head trigger does not change eligibility of a
trigger list. -/
theorem exists_eligible_cons_of_head_false {t : ScaleTriggers}
    {rest : List ScaleTriggers} (hte : fallbackEligible t = false) :
    (∃ u ∈ rest, fallbackEligible u = true) ↔
      ∃ u ∈ t :: rest, fallbackEligible u = true := by
  constructor
  · rintro ⟨u, hu, he⟩
    exact ⟨u, List.mem_cons_of_mem _ hu, he⟩
  · rintro ⟨u, hu, he⟩
    rcases List.mem_cons.mp hu with rfl | hu2
    · rw [hte] at he; cases he
    · exact ⟨u, hu2, he⟩

/-- Helper: the short-circuiting trigger loop returns true exactly when some
trigger is fallback-eligible. -/
theorem fallbackTriggerScan_eq_true_iff (l : List ScaleTriggers) :
    fallbackTriggerScan l = true ↔ ∃ t ∈ l, fallbackEligible t = true := by
  induction l with
  | nil => simp [fallbackTriggerScan]
  | cons t rest ih =>
    unfold fallbackTriggerScan
    dsimp only
    by_cases h1 : t.type = cpuString ∨ t.type = memoryString
    · rw [if_pos h1, ih]
      refine exists_eligible_cons_of_head_false ?_
      rcases h1 with h | h <;> simp [fallbackEligible, h]
    · rw [if_neg h1]
      by_cases h2 : (if t.metricType = "" then AverageValueMetricType
          else t.metricType) = AverageValueMetricType
      · rw [if_pos h2]
        push_neg at h1
        simp only [true_iff]
        exact ⟨t, List.mem_cons_self t rest, (fallbackEligible_iff t).mpr ⟨h1, h2⟩⟩
      · rw [if_neg h2, ih]
        refine exists_eligible_cons_of_head_false ?_
        rw [Bool.eq_false_iff]
        intro hT
        exact h2 ((fallbackEligible_iff t).mp hT).2

/-- Helper: the trigger loop, characterised in the claims' language. -/
theorem fallbackTriggerScan_iff_exists (l : List ScaleTriggers) :
    fallbackTriggerScan l = true ↔
      ∃ t ∈ l, (t.type ≠ cpuString ∧ t.type ≠ memoryString) ∧
        (if t.metricType = "" then AverageValueMetricType else t.metricType) =
          AverageValueMetricType := by
  rw [fallbackTriggerScan_eq_true_iff]
  exact exists_congr fun t => and_congr_right fun _ => fallbackEligible_iff t

/-- Helper: normal form of `CheckFallbackValid` on an object whose trigger
list has been replaced; every other field is read from the original object. -/
theorem CheckFallbackValid_set_triggers (so : ScaledObject) (l : List ScaleTriggers) :
    CheckFallbackValid { so with spec := { so.spec with triggers := l } } =
      (match so.spec.fallback with
       | none => none
       | some fb =>
         if fb.failureThreshold < 0 ∨ fb.replicas < 0 then
           some FallbackError.NegativeFallbackField
         else if IsUsingModifiers so then
           if modifiersMetricType so = ValueMetricType then
             some FallbackError.UnsupportedFallbackMetricType
           else none
         else if fallbackTriggerScan l then none
         else some FallbackError.NoEligibleFallbackTrigger) := rfl

/-- Helper: the same normal form for an unmodified object. -/
theorem CheckFallbackValid_unfolded (so : ScaledObject) :
    CheckFallbackValid so =
      (match so.spec.fallback with
       | none => none
       | some fb =>
         if fb.failureThreshold < 0 ∨ fb.replicas < 0 then
           some FallbackError.NegativeFallbackField
         else if IsUsingModifiers so then
           if modifiersMetricType so = ValueMetricType then
             some FallbackError.UnsupportedFallbackMetricType
           else none
         else if fallbackTriggerScan so.spec.triggers then none
         else some FallbackError.NoEligibleFallbackTrigger) := rfl

/-- C1 counterexample: at declared min 0 and declared max 0 the claim
predicts success (declared min 0 is not greater than effective max 0), but
`CheckReplicaCountBoundsAreValid` fails with `OutOfBoundsReplicaCount`,
because a declared non-positive min is clamped to 1 through
`GetHPAMinReplicas` before the comparison. -/
theorem C1_counterexample :
    CheckReplicaCountBoundsAreValid soMinZeroMaxZero =
        some ReplicaBoundsError.OutOfBoundsReplicaCount ∧
      soMinZeroMaxZero.spec.minReplicaCount = some 0 ∧
      ¬ ((0 : Int) > soMinZeroMaxZero.spec.maxReplicaCount.getD 100) := by
  decide

/-- C1 (amended): `CheckReplicaCountBoundsAreValid` fails with
`OutOfBoundsReplicaCount` iff the min baseline — the declared min when
present and positive, 1 when a min is declared but not positive, 0 when no
min is declared — is strictly greater than the effective max (declared max
when present, else 100). -/
theorem C1_bound_check (so : ScaledObject) :
    CheckReplicaCountBoundsAreValid so = some ReplicaBoundsError.OutOfBoundsReplicaCount ↔
      boundsCheckMinBaseline so > so.spec.maxReplicaCount.getD 100 := by
  unfold CheckReplicaCountBoundsAreValid
  rw [boundsCheckMinBaseline_eq]
  have hmax : GetHPAMaxReplicas so = so.spec.maxReplicaCount.getD 100 := by
    unfold GetHPAMaxReplicas
    cases h : so.spec.maxReplicaCount <;> simp [h, defaultHPAMaxReplicas]
  rw [hmax]
  dsimp only
  split_ifs with h
  · simp [h]
  · cases hidle : so.spec.idleReplicaCount <;> simp [h]

/-- C2 counterexample: at declared min 0 and idle 0 (bound check passing),
the claim predicts an `IdleAboveOrEqualMin` failure (idle 0 is not below the
declared min 0), but `CheckReplicaCountBoundsAreValid` succeeds, because the
declared min 0 is clamped to 1 before the idle comparison. -/
theorem C2_counterexample :
    CheckReplicaCountBoundsAreValid soMinZeroIdleZero ≠
        some ReplicaBoundsError.OutOfBoundsReplicaCount ∧
      soMinZeroIdleZero.spec.idleReplicaCount = some 0 ∧
      soMinZeroIdleZero.spec.minReplicaCount = some 0 ∧
      (0 : Int) ≥ 0 ∧
      CheckReplicaCountBoundsAreValid soMinZeroIdleZero = none := by
  decide

/-- C2 (amended): on a spec where the bound check does not fail,
`CheckReplicaCountBoundsAreValid` fails with `IdleAboveOrEqualMin` iff an
idle count is declared and is at least the min baseline (declared min when
positive, 1 when declared but not positive, 0 when absent); otherwise it
succeeds. -/
theorem C2_idle_check (so : ScaledObject)
    (hnb : CheckReplicaCountBoundsAreValid so ≠
      some ReplicaBoundsError.OutOfBoundsReplicaCount) :
    (CheckReplicaCountBoundsAreValid so = some ReplicaBoundsError.IdleAboveOrEqualMin ↔
      ∃ idle, so.spec.idleReplicaCount = some idle ∧ idle ≥ boundsCheckMinBaseline so) ∧
    (CheckReplicaCountBoundsAreValid so = none ↔
      ¬ ∃ idle, so.spec.idleReplicaCount = some idle ∧
        idle ≥ boundsCheckMinBaseline so) := by
  unfold CheckReplicaCountBoundsAreValid at *
  rw [boundsCheckMinBaseline_eq] at *
  dsimp only at *
  split_ifs at * with h
  · simp at hnb
  · cases hidle : so.spec.idleReplicaCount <;> simp [hidle]

/-- C2 witness: declared min 10 with idle 10 fails with
`IdleAboveOrEqualMin`. -/
theorem C2_witness :
    CheckReplicaCountBoundsAreValid soMin10Idle10 =
      some ReplicaBoundsError.IdleAboveOrEqualMin :=
  (C2_idle_check soMin10Idle10 (by decide)).1.mpr ⟨10, by decide, by decide⟩

/-- C3: `needToBePausedByAnn` resolves with exact precedence — a present
paused-replicas annotation key makes the result equal the presence of
`status.pausedReplicaCount`, regardless of values; else an absent paused
annotation yields false; else the parsed Boolean of the paused annotation's
value, or true when parsing fails. -/
theorem C3_pause (so : ScaledObject) :
    ((so.annotations.lookup pausedReplicasAnnKey).isSome →
      needToBePausedByAnn so = so.status.pausedReplicaCount.isSome) ∧
    (so.annotations.lookup pausedReplicasAnnKey = none →
      so.annotations.lookup pausedAnnKey = none →
      needToBePausedByAnn so = false) ∧
    (so.annotations.lookup pausedReplicasAnnKey = none →
      ∀ v, so.annotations.lookup pausedAnnKey = some v →
        needToBePausedByAnn so = (goParseBool v).getD true) := by
  unfold needToBePausedByAnn
  refine ⟨fun h => by simp [h], fun h1 h2 => by simp [h1, h2], fun h1 v hv => ?_⟩
  simp [h1, hv]
  cases goParseBool v <;> simp

/-- C3 witness: a malformed paused annotation value resolves to paused. -/
theorem C3_witness : needToBePausedByAnn soPausedGarbage = true :=
  ((C3_pause soPausedGarbage).2.2 (by decide) "not-a-bool" (by decide)).trans (by decide)

/-- C4: with fallback present, nonnegative fallback fields and no modifiers
in use, `CheckFallbackValid` fails with `NoEligibleFallbackTrigger` iff no
trigger has a type tag other than `cpu`/`memory` with effective metric type
`AverageValue` (unset defaulting to `AverageValue`); it succeeds iff such a
trigger exists; and the outcome is invariant under permuting the triggers. -/
theorem C4_trigger_eligibility (so : ScaledObject) (fb : Fallback)
    (hfb : so.spec.fallback = some fb)
    (hnn : 0 ≤ fb.failureThreshold ∧ 0 ≤ fb.replicas)
    (hmod : IsUsingModifiers so = false) :
    (CheckFallbackValid so = some FallbackError.NoEligibleFallbackTrigger ↔
      ¬ ∃ t ∈ so.spec.triggers, (t.type ≠ cpuString ∧ t.type ≠ memoryString) ∧
        (if t.metricType = "" then AverageValueMetricType else t.metricType) =
          AverageValueMetricType) ∧
    (CheckFallbackValid so = none ↔
      ∃ t ∈ so.spec.triggers, (t.type ≠ cpuString ∧ t.type ≠ memoryString) ∧
        (if t.metricType = "" then AverageValueMetricType else t.metricType) =
          AverageValueMetricType) ∧
    (∀ l, l.Perm so.spec.triggers →
      CheckFallbackValid { so with spec := { so.spec with triggers := l } } =
        CheckFallbackValid so) := by
  have hneg : ¬(fb.failureThreshold < 0 ∨ fb.replicas < 0) := by omega
  refine ⟨?_, ?_, ?_⟩
  · rw [CheckFallbackValid_unfolded]
    simp only [hfb]
    rw [if_neg hneg, if_neg (by simp [hmod])]
    rw [← fallbackTriggerScan_iff_exists]
    split_ifs with h <;> simp [h]
  · rw [CheckFallbackValid_unfolded]
    simp only [hfb]
    rw [if_neg hneg, if_neg (by simp [hmod])]
    rw [← fallbackTriggerScan_iff_exists]
    split_ifs with h <;> simp [h]
  · intro l hl
    have hscan : fallbackTriggerScan l = fallbackTriggerScan so.spec.triggers := by
      by_cases h : fallbackTriggerScan so.spec.triggers = true
      · rw [h, fallbackTriggerScan_eq_true_iff]
        rw [fallbackTriggerScan_eq_true_iff] at h
        obtain ⟨t, ht, he⟩ := h
        exact ⟨t, hl.mem_iff.mpr ht, he⟩
      · have h2 : ¬ fallbackTriggerScan l = true := by
          rw [fallbackTriggerScan_eq_true_iff] at h ⊢
          rintro ⟨t, ht, he⟩
          exact h ⟨t, hl.mem_iff.mp ht, he⟩
        rw [Bool.not_eq_true] at h h2
        rw [h, h2]
    rw [CheckFallbackValid_set_triggers, CheckFallbackValid_unfolded, hscan]

/-- C4 witness: a kafka trigger with unset metric type beside a cpu trigger
makes the fallback valid. -/
theorem C4_witness : CheckFallbackValid soTrigKafka = none :=
  (C4_trigger_eligibility soTrigKafka fbNonneg (by decide) (by decide) (by decide)).2.1.mpr
    ⟨kafkaTrigger, by decide⟩

/-- C5: with fallback present, nonnegative fallback fields and modifiers in
use, `CheckFallbackValid` fails with `UnsupportedFallbackMetricType` iff the
modifiers' metric type equals `Value`; with an unset or `AverageValue`
modifier metric type it succeeds. -/
theorem C5_modifier_metric (so : ScaledObject) (fb : Fallback)
    (hfb : so.spec.fallback = some fb)
    (hnn : 0 ≤ fb.failureThreshold ∧ 0 ≤ fb.replicas)
    (hmod : IsUsingModifiers so = true) :
    (CheckFallbackValid so = some FallbackError.UnsupportedFallbackMetricType ↔
      modifiersMetricType so = ValueMetricType) ∧
    (modifiersMetricType so = "" ∨ modifiersMetricType so = AverageValueMetricType →
      CheckFallbackValid so = none) := by
  unfold CheckFallbackValid
  simp only [hfb]
  have hneg : ¬(fb.failureThreshold < 0 ∨ fb.replicas < 0) := by omega
  rw [if_neg hneg, if_pos hmod]
  constructor
  · split_ifs with h <;> simp [h]
  · intro hv
    have : modifiersMetricType so ≠ ValueMetricType := by
      rcases hv with h | h <;> rw [h] <;> simp [ValueMetricType, AverageValueMetricType]
    simp [this]

/-- C5 witness: modifiers with metric type `Value` and fallback present give
`UnsupportedFallbackMetricType`. -/
theorem C5_witness :
    CheckFallbackValid soModValue = some FallbackError.UnsupportedFallbackMetricType :=
  (C5_modifier_metric soModValue fbNonneg (by decide) (by decide) (by decide)).1.mpr
    (by decide)

/-- C6: `IsUsingModifiers` is true iff the advanced block is present and its
scaling modifiers differ, field by field, from the all-default value (three
empty strings and an unset metric type). -/
theorem C6_modifiers (so : ScaledObject) :
    IsUsingModifiers so = true ↔
      ∃ adv, so.spec.advanced = some adv ∧
        ¬(adv.scalingModifiers.formula = "" ∧ adv.scalingModifiers.target = "" ∧
          adv.scalingModifiers.activationTarget = "" ∧
          adv.scalingModifiers.metricType = "") := by
  unfold IsUsingModifiers
  cases h : so.spec.advanced with
  | none => simp
  | some adv =>
    simp only [h, Option.some.injEq, decide_not]
    constructor
    · intro hne
      refine ⟨adv, rfl, fun hall => ?_⟩
      have : adv.scalingModifiers = emptyScalingModifiers := by
        cases hsm : adv.scalingModifiers
        simp [emptyScalingModifiers]
        simp [hsm] at hall
        exact hall
      simp [this] at hne
    · rintro ⟨adv2, rfl, hne⟩
      simp only [Bool.not_eq_true', decide_eq_false_iff_not, ne_eq,
        Decidable.not_not] at *
      intro heq
      apply hne
      rw [heq]
      simp [emptyScalingModifiers]

/-- C7: `GetHPAMinReplicas` returns the declared min when present and
positive and 1 otherwise; `GetHPAMaxReplicas` returns the declared max when
present and 100 otherwise. -/
theorem C7_defaults (so : ScaledObject) :
    (∀ m, so.spec.minReplicaCount = some m → 0 < m → GetHPAMinReplicas so = m) ∧
    ((¬ ∃ m, so.spec.minReplicaCount = some m ∧ 0 < m) → GetHPAMinReplicas so = 1) ∧
    (∀ m, so.spec.maxReplicaCount = some m → GetHPAMaxReplicas so = m) ∧
    (so.spec.maxReplicaCount = none → GetHPAMaxReplicas so = 100) := by
  unfold GetHPAMinReplicas GetHPAMaxReplicas
  refine ⟨fun m hm hpos => ?_, fun hno => ?_, fun m hm => by simp [hm], fun h => by
    simp [h, defaultHPAMaxReplicas]⟩
  · simp [hm, hpos]
  · cases h : so.spec.minReplicaCount with
    | none => simp [defaultHPAMinReplicas]
    | some m =>
      push_neg at hno
      have := hno m h
      simp [h, defaultHPAMinReplicas]
      intro hpos
      omega

/-- C7 witness: with neither bound declared the effective bounds are 1
and 100. -/
theorem C7_witness :
    GetHPAMinReplicas (mkSO soSpecEmpty) = 1 ∧ GetHPAMaxReplicas (mkSO soSpecEmpty) = 100 :=
  ⟨(C7_defaults (mkSO soSpecEmpty)).2.1 (by simp [mkSO, soSpecEmpty]),
    (C7_defaults (mkSO soSpecEmpty)).2.2.2 (by decide)⟩

/-- C8: with a fallback block present, `CheckFallbackValid` fails with
`NegativeFallbackField` iff the failure threshold or the replicas are
negative, regardless of modifiers or triggers (the check takes precedence);
with no fallback block it always succeeds. -/
theorem C8_negative_and_absent (so : ScaledObject) :
    (so.spec.fallback = none → CheckFallbackValid so = none) ∧
    (∀ fb, so.spec.fallback = some fb →
      (CheckFallbackValid so = some FallbackError.NegativeFallbackField ↔
        fb.failureThreshold < 0 ∨ fb.replicas < 0)) := by
  unfold CheckFallbackValid
  refine ⟨fun h => by simp [h], fun fb hfb => ?_⟩
  simp only [hfb]
  split_ifs with h1 <;> simp [h1]

/-- C8 witness: a fallback with failure threshold -1 gives
`NegativeFallbackField`. -/
theorem C8_witness :
    CheckFallbackValid soNegFallback = some FallbackError.NegativeFallbackField :=
  ((C8_negative_and_absent soNegFallback).2 fbNeg (by decide)).mpr (Or.inl (by decide))

/-- C9: `GetHPAMinReplicas` is always at least 1; in particular a declared
non-positive min yields the default 1, never the declared value. -/
theorem C9_min_positive (so : ScaledObject) :
    1 ≤ GetHPAMinReplicas so ∧
      (∀ m, so.spec.minReplicaCount = some m → m ≤ 0 → GetHPAMinReplicas so = 1) := by
  unfold GetHPAMinReplicas
  constructor
  · cases h : so.spec.minReplicaCount with
    | none => simp [defaultHPAMinReplicas]
    | some m =>
      simp [defaultHPAMinReplicas]
      split_ifs with hpos <;> omega
  · intro m hm hle
    simp [hm, defaultHPAMinReplicas]
    omega

/-- C9 witness: a declared min of -5 still yields an effective min of 1. -/
theorem C9_witness :
    1 ≤ GetHPAMinReplicas soMinNeg ∧ GetHPAMinReplicas soMinNeg = 1 :=
  ⟨(C9_min_positive soMinNeg).1, (C9_min_positive soMinNeg).2 (-5) (by decide) (by decide)⟩

/-- C10: with fallback present, nonnegative fallback fields and modifiers in
use, replacing the trigger list by any other list leaves the outcome of
`CheckFallbackValid` unchanged: the trigger scan is skipped entirely. -/
theorem C10_triggers_irrelevant (so : ScaledObject) (l : List ScaleTriggers)
    (fb : Fallback) (hfb : so.spec.fallback = some fb)
    (hnn : 0 ≤ fb.failureThreshold ∧ 0 ≤ fb.replicas)
    (hmod : IsUsingModifiers so = true) :
    CheckFallbackValid { so with spec := { so.spec with triggers := l } } =
      CheckFallbackValid so := by
  have hneg : ¬(fb.failureThreshold < 0 ∨ fb.replicas < 0) := by omega
  rw [CheckFallbackValid_set_triggers, CheckFallbackValid_unfolded]
  simp only [hfb]
  rw [if_neg hneg, if_neg hneg, if_pos hmod, if_pos hmod]

/-- C10 witness: with modifiers of metric type `AverageValue` in use,
swapping in a kafka trigger list leaves the result unchanged. -/
theorem C10_witness :
    CheckFallbackValid
        { soModAvg with spec := { soModAvg.spec with triggers := [kafkaTrigger] } } =
      CheckFallbackValid soModAvg :=
  C10_triggers_irrelevant soModAvg [kafkaTrigger] fbNonneg (by decide) (by decide)
    (by decide)
